import Mathlib

/-!
Shallow embedding of the dsPIC33FJ32MC204 firmware repository
(ADC driver `src/ADC/ADC.c` + system lifecycle `config.c` + clock
configuration `src/CONFIG/config.h`), with theorems checking the
natural-language specification against the code.

Machine integers are modelled as `Nat` with explicit truncation
(`% 2 ^ w`) at the points where the C types force it.  Hardware
registers of the converter and the ports are explicit record fields;
the hardware actions that the code merely observes (the conversion
result appearing in the result buffer, the external context calling
`SYSTEM_Wakeup` during the sleep poll loop) are parameters of the
corresponding functions.
-/

/-! ## AnalogConverter: src/ADC/ADC.h and src/ADC/ADC.c -/

/-- `#define ADC_RESOLUTION_BITS 12u` (src/ADC/ADC.h line 39). -/
def ADC_RESOLUTION_BITS : Nat := 12

/-- `#define ADC_MAX_VALUE ((1u << ADC_RESOLUTION_BITS) - 1u)` (src/ADC/ADC.h line 40). -/
def ADC_MAX_VALUE : Nat := (1 <<< ADC_RESOLUTION_BITS) - 1

/-- The converter registers touched by src/ADC/ADC.c, plus the module
static `adc_last_result`.  `CH0SA` is the channel-select field of
`AD1CHS0`; `SAMP` and `DONE` are the control bits of `AD1CON1`;
`ADC1BUF0` is the 16-bit result buffer (its content is written by the
hardware, so it is an arbitrary register value here). -/
structure ADC_Regs where
  CH0SA : Nat
  SAMP : Bool
  DONE : Bool
  ADC1BUF0 : Nat
  adc_last_result : Nat
deriving DecidableEq, Repr

/-- `ADC_StartSingle` (src/ADC/ADC.c lines 68-87): writes the channel
into the mux field (`AD1CHS0bits.CH0SA = channel;` — `CH0SA` is a
5-bit bitfield on this device family, so the assignment keeps the low
5 bits), asserts `SAMP`, busy-waits a fixed 60 iterations (no register
effect), then deasserts `SAMP` to launch the conversion.  The source
performs no validity check on `channel` and has no failure path. -/
def ADC_StartSingle (channel : Nat) (s : ADC_Regs) : ADC_Regs :=
  let s1 := { s with CH0SA := channel % 2 ^ 5 }
  let s2 := { s1 with SAMP := true }
  -- fixed-count acquisition busy-wait: no observable register change
  let s3 := { s2 with SAMP := false }
  s3

/-- `ADC_ReadSingleBlocking` (src/ADC/ADC.c lines 90-107): starts a
single conversion, busy-waits on `DONE`, then reads `ADC1BUF0`, masks
with `ADC_MAX_VALUE`, caches and returns.  `hwBuf` is the content the
hardware has deposited in the 16-bit result buffer by the time `DONE`
is observed; `uint16_t r = ADC1BUF0;` truncates the register read to
16 bits. -/
def ADC_ReadSingleBlocking (channel : Nat) (hwBuf : Nat) (s : ADC_Regs) :
    Nat × ADC_Regs :=
  let s1 := ADC_StartSingle channel s
  -- while (!AD1CON1bits.DONE) {}  — exits once the hardware sets DONE,
  -- having written the conversion result into ADC1BUF0
  let s2 := { s1 with DONE := true, ADC1BUF0 := hwBuf }
  let r := s2.ADC1BUF0 % 2 ^ 16
  let v := r &&& ADC_MAX_VALUE
  (v, { s2 with adc_last_result := v })

/-- `ADC_IsConversionDone` (src/ADC/ADC.c lines 110-117): pure poll of
the `DONE` flag. -/
def ADC_IsConversionDone (s : ADC_Regs) : Bool :=
  s.DONE

/-- `ADC_GetResult` (src/ADC/ADC.c lines 120-127): reads `ADC1BUF0`
(16-bit register read), masks with `ADC_MAX_VALUE`, caches and
returns. -/
def ADC_GetResult (s : ADC_Regs) : Nat × ADC_Regs :=
  let r := s.ADC1BUF0 % 2 ^ 16
  let v := r &&& ADC_MAX_VALUE
  (v, { s with adc_last_result := v })

/-- Faults named by the specification for contract checking.  The
specification demands that an out-of-range channel raise
`ContractViolation`. -/
inductive ADC_Fault where
  | ContractViolation
deriving DecidableEq, Repr

/-- Modelled from the spec (refinement comparison): the specification
says `StartSingle(channel)` requires `channel` in `[0, channelCount)`
and that an out-of-range channel raises `ContractViolation` — a
deterministic, test-detectable failure.  This definition follows the
words of the spec so it can be compared with `ADC_StartSingle`, the
embedding of the source. -/
def spec_StartSingle (channelCount channel : Nat) (s : ADC_Regs) :
    Except ADC_Fault ADC_Regs :=
  if channel < channelCount then Except.ok (ADC_StartSingle channel s)
  else Except.error ADC_Fault.ContractViolation

/-- A concrete register state used to evaluate the definitions:
conversion complete, result buffer holding an arbitrary 16-bit
pattern. -/
def sampleADC : ADC_Regs :=
  { CH0SA := 0, SAMP := false, DONE := true, ADC1BUF0 := 0x0ABC,
    adc_last_result := 0 }

/-! ### Claims C1 to C3 -/

/-- C1: for every channel index (in particular every channel valid for
the target hardware) and whatever raw value the hardware leaves in the
result buffer, `ADC_ReadSingleBlocking` returns a value in
`[0, 4095]`: the value is masked with `ADC_MAX_VALUE = 2 ^ 12 - 1`
before it leaves the converter. -/
theorem adc_readSingleBlocking_in_range
    (channel hwBuf : Nat) (s : ADC_Regs) :
    (ADC_ReadSingleBlocking channel hwBuf s).1 ≤ ADC_MAX_VALUE ∧
      ADC_MAX_VALUE = 4095 := by
  refine ⟨?_, by decide⟩
  simp only [ADC_ReadSingleBlocking]
  exact Nat.and_le_right

/-- C3: whenever the conversion-complete flag is set,
`ADC_GetResult` returns exactly the value that
`ADC_ReadSingleBlocking` returns for the same channel and the same
result-buffer content: both paths compute `buffer % 2 ^ 16 &&&
ADC_MAX_VALUE`. -/
theorem adc_getResult_eq_readSingleBlocking
    (channel : Nat) (s : ADC_Regs)
    (_h : ADC_IsConversionDone s = true) :
    (ADC_GetResult s).1 =
      (ADC_ReadSingleBlocking channel s.ADC1BUF0 s).1 := by
  simp [ADC_GetResult, ADC_ReadSingleBlocking]

/-- Witness for C3 at a concrete completed conversion. -/
theorem adc_getResult_eq_readSingleBlocking_witness :
    ADC_IsConversionDone sampleADC = true ∧
      (ADC_GetResult sampleADC).1 =
        (ADC_ReadSingleBlocking 0 sampleADC.ADC1BUF0 sampleADC).1 :=
  ⟨by decide, adc_getResult_eq_readSingleBlocking 0 sampleADC (by decide)⟩

/-- C2 counterexample: the claim says `StartSingle(9)` on a 4-channel
converter raises `ContractViolation`.  The specification-side
definition indeed demands the error, but the source performs no range
check and has no failure path: `ADC_StartSingle 9` completes normally,
silently writing 9 into the channel-select field. -/
theorem adc_startSingle_no_contract_check_counterexample :
    spec_StartSingle 4 9 sampleADC =
        Except.error ADC_Fault.ContractViolation ∧
      ADC_StartSingle 9 sampleADC =
        { sampleADC with CH0SA := 9, SAMP := false } := by
  constructor
  · rfl
  · decide

/-- C2 amended: on the 4-channel converter, `StartSingle(3)` succeeds
(writes channel 3 into the mux and launches a conversion), and
`StartSingle(9)` is NOT rejected: the source performs no range check,
so the call also completes normally, silently writing the
out-of-range channel 9 into the mux field — no `ContractViolation`
or any other deterministic failure is raised. -/
theorem adc_startSingle_unchecked (s : ADC_Regs) :
    ADC_StartSingle 3 s = { s with CH0SA := 3, SAMP := false } ∧
      ADC_StartSingle 9 s = { s with CH0SA := 9, SAMP := false } := by
  constructor <;> simp [ADC_StartSingle]

/-! ## SystemLifecycle: src/CONFIG/config.h and config.c (src/unnamed/part_000) -/

/-- `System_State_t` (src/CONFIG/config.h lines 196-202). -/
inductive System_State_t where
  | SYS_STATE_INIT
  | SYS_STATE_READY
  | SYS_STATE_BUSY
  | SYS_STATE_ERROR
  | SYS_STATE_SLEEP
deriving DecidableEq, Repr

open System_State_t

/-- Observable events of the lifecycle module, used to check the
ordering contract of `SYSTEM_Initialize`. -/
inductive SysEvent where
  | DisableIRQ
  | PortSetup
  | SetState (st : System_State_t)
  | EnableIRQ
deriving DecidableEq, Repr

/-- Lifecycle state: the module static `system_state`, the global
maskable-interrupt flag toggled by `__builtin_enable_interrupts` /
`__builtin_disable_interrupts`, the port registers touched by
`ports_init` and `SYSTEM_Deinitialize`, and an event trace.  Each
trace entry records the event together with the interrupt-enable flag
in force when the event happens, so ordering and critical-section
claims are about this log. -/
structure SysState where
  system_state : System_State_t
  interruptsEnabled : Bool
  TRISB : Nat
  LATB : Nat
  trace : List (SysEvent × Bool)
deriving DecidableEq, Repr

/-- `SYSTEM_DisableInterrupts` (config.c): flat clear of the global
interrupt-enable flag via `__builtin_disable_interrupts()`; no
nesting counter of any kind. -/
def SYSTEM_DisableInterrupts (s : SysState) : SysState :=
  { s with interruptsEnabled := false,
           trace := s.trace ++ [(SysEvent.DisableIRQ, false)] }

/-- `SYSTEM_EnableInterrupts` (config.c): flat set of the global
interrupt-enable flag via `__builtin_enable_interrupts()`. -/
def SYSTEM_EnableInterrupts (s : SysState) : SysState :=
  { s with interruptsEnabled := true,
           trace := s.trace ++ [(SysEvent.EnableIRQ, true)] }

/-- The direct assignments `system_state = ...;` of config.c,
instrumented to log the assignment together with the interrupt flag
in force at that moment. -/
def set_system_state (st : System_State_t) (s : SysState) : SysState :=
  { s with system_state := st,
           trace := s.trace ++ [(SysEvent.SetState st, s.interruptsEnabled)] }

/-- `ports_init` (config.c): `LATB = 0x0000;` then, with
`CONFIG_PORT_B_ENABLED` defined (the active configuration in
config.h), clears `TRISB0..TRISB7`, i.e. the low byte of `TRISB`. -/
def ports_init (s : SysState) : SysState :=
  let s1 := { s with LATB := 0 }
  let s2 := { s1 with TRISB := s1.TRISB &&& 0xFF00 }
  { s2 with trace := s2.trace ++ [(SysEvent.PortSetup, s2.interruptsEnabled)] }

/-- `SYSTEM_Initialize` (config.c): disable interrupts, run
`ports_init`, set `system_state = SYS_STATE_READY`, re-enable
interrupts.  Total: it has no failure path. -/
def SYSTEM_Initialize (s : SysState) : SysState :=
  SYSTEM_EnableInterrupts
    (set_system_state SYS_STATE_READY
      (ports_init
        (SYSTEM_DisableInterrupts s)))

/-- `SYSTEM_Deinitialize` (config.c): `TRISB |= 0x00FF;` then
`system_state = SYS_STATE_INIT;`. -/
def SYSTEM_Deinitialize (s : SysState) : SysState :=
  set_system_state SYS_STATE_INIT { s with TRISB := s.TRISB ||| 0x00FF }

/-- `SYSTEM_Wakeup` (config.c): `if (system_state == SYS_STATE_SLEEP)
{ system_state = SYS_STATE_READY; }` — nothing else. -/
def SYSTEM_Wakeup (s : SysState) : SysState :=
  if s.system_state = SYS_STATE_SLEEP then
    set_system_state SYS_STATE_READY s
  else
    s

/-- `SYSTEM_Reset` (config.c): `system_state = SYS_STATE_INIT;`
followed by `while (1) { __builtin_nop(); }` — a non-returning
quiescent loop that performs no further state change, so the state at
every later instant is the one returned here. -/
def SYSTEM_Reset (s : SysState) : SysState :=
  set_system_state SYS_STATE_INIT s

/-- `SYSTEM_GetState` (config.c): pure read of `system_state`. -/
def SYSTEM_GetState (s : SysState) : System_State_t :=
  s.system_state

/-- The poll loop of `SYSTEM_EnterSleep` (config.c):
`while (system_state == SYS_STATE_SLEEP) { __builtin_nop(); }`.
The only concurrency in the system is the external execution context
(an interrupt handler) that may call `SYSTEM_Wakeup` while this loop
spins; `env` lists, for each loop iteration, whether that context
calls `SYSTEM_Wakeup` during the iteration.  `none` means the loop is
still spinning when the recorded environment activity is exhausted,
i.e. the call has not returned. -/
def sleep_loop : List Bool → SysState → Option SysState
  | [], s =>
      if s.system_state = SYS_STATE_SLEEP then none else some s
  | w :: ws, s =>
      if s.system_state = SYS_STATE_SLEEP then
        sleep_loop ws (if w then SYSTEM_Wakeup s else s)
      else some s

/-- `SYSTEM_EnterSleep` (config.c): `system_state = SYS_STATE_SLEEP;`
then the poll loop above (the real `Sleep()` instruction is commented
out in the source; the loop is the shipped behaviour). -/
def SYSTEM_EnterSleep (env : List Bool) (s : SysState) : Option SysState :=
  sleep_loop env (set_system_state SYS_STATE_SLEEP s)

/-- A concrete lifecycle state at power-on:
`static volatile System_State_t system_state = SYS_STATE_INIT;`, all
port-B pins inputs, interrupts masked, empty trace. -/
def initSys : SysState :=
  { system_state := SYS_STATE_INIT, interruptsEnabled := false,
    TRISB := 0xFFFF, LATB := 0, trace := [] }

/-- A concrete lifecycle state whose `system_state` is `Sleep`. -/
def sleepSys : SysState :=
  { initSys with system_state := SYS_STATE_SLEEP }

/-! ### Helper lemmas about the sleep poll loop -/

/-- If the observed state is not `Sleep`, the poll loop exits at once
with the state unchanged. -/
theorem sleep_loop_exit (env : List Bool) (s : SysState)
    (h : s.system_state ≠ SYS_STATE_SLEEP) :
    sleep_loop env s = some s := by
  cases env <;> simp [sleep_loop, h]

/-- While the external context never calls `SYSTEM_Wakeup`, the poll
loop keeps spinning: it has not returned when the recorded
environment activity runs out. -/
theorem sleep_loop_no_wakeup (env : List Bool) :
    ∀ s : SysState, s.system_state = SYS_STATE_SLEEP →
      (∀ w ∈ env, w = false) → sleep_loop env s = none := by
  induction env with
  | nil =>
      intro s hs _
      simp [sleep_loop, hs]
  | cons w ws ih =>
      intro s hs hw
      have hwf : w = false := hw w (List.mem_cons_self w ws)
      subst hwf
      simpa [sleep_loop, hs] using
        ih s hs (fun v hv => hw v (List.mem_cons_of_mem _ hv))

/-- If the poll loop entered in state `Sleep` returns, then the
external context did call `SYSTEM_Wakeup` during some iteration, and
the state it returns is `Ready`. -/
theorem sleep_loop_returns (env : List Bool) :
    ∀ s s' : SysState, s.system_state = SYS_STATE_SLEEP →
      sleep_loop env s = some s' →
      s'.system_state = SYS_STATE_READY ∧ env.any (fun w => w) = true := by
  induction env with
  | nil =>
      intro s s' hs h
      simp [sleep_loop, hs] at h
  | cons w ws ih =>
      intro s s' hs h
      rw [sleep_loop, if_pos hs] at h
      cases w with
      | false =>
          have := ih s s' hs h
          simpa using this
      | true =>
          have hready :
              (SYSTEM_Wakeup s).system_state = SYS_STATE_READY := by
            simp [SYSTEM_Wakeup, hs, set_system_state]
          have hne :
              (SYSTEM_Wakeup s).system_state ≠ SYS_STATE_SLEEP := by
            rw [hready]; intro hc; cases hc
          rw [if_pos rfl] at h
          rw [sleep_loop_exit ws _ hne] at h
          cases h
          simp [hready]

/-! ### Claims C4 to C8 -/

/-- C4: `SYSTEM_Wakeup` moves the state to `Ready` exactly when the
current state is `Sleep`; in every other state the call changes
nothing at all. -/
theorem system_wakeup_iff_sleep (s : SysState) :
    (s.system_state = SYS_STATE_SLEEP →
      (SYSTEM_Wakeup s).system_state = SYS_STATE_READY) ∧
    (s.system_state ≠ SYS_STATE_SLEEP → SYSTEM_Wakeup s = s) := by
  constructor
  · intro h
    simp [SYSTEM_Wakeup, h, set_system_state]
  · intro h
    simp [SYSTEM_Wakeup, h]

/-- Witness for C4: waking from `Sleep` yields `Ready`; waking from
`Init` changes nothing. -/
theorem system_wakeup_iff_sleep_witness :
    (SYSTEM_Wakeup sleepSys).system_state = SYS_STATE_READY ∧
      SYSTEM_Wakeup initSys = initSys :=
  ⟨(system_wakeup_iff_sleep sleepSys).1 (by decide),
   (system_wakeup_iff_sleep initSys).2 (by decide)⟩

/-- C5: `SYSTEM_Initialize` is a total function (it always succeeds)
that leaves `system_state = SYS_STATE_READY` from any starting state,
and calling it twice in succession ends in `Ready` both times. -/
theorem system_initialize_ready_idempotent (s : SysState) :
    (SYSTEM_Initialize s).system_state = SYS_STATE_READY ∧
      (SYSTEM_Initialize (SYSTEM_Initialize s)).system_state =
        SYS_STATE_READY := by
  exact ⟨rfl, rfl⟩

/-- C6: the event trace of `SYSTEM_Initialize` is exactly
disable-interrupts, then port setup, then the assignment of `Ready`,
then enable-interrupts; the flag recorded with each event shows that
the port configuration (and the state assignment) happen while
interrupts are disabled. -/
theorem system_initialize_critical_section_order (s : SysState) :
    (SYSTEM_Initialize s).trace =
      s.trace ++
        [(SysEvent.DisableIRQ, false), (SysEvent.PortSetup, false),
         (SysEvent.SetState SYS_STATE_READY, false),
         (SysEvent.EnableIRQ, true)] := by
  simp [SYSTEM_Initialize, SYSTEM_EnableInterrupts, set_system_state,
    ports_init, SYSTEM_DisableInterrupts]

/-- C7: `SYSTEM_EnterSleep` first sets the state to `Sleep`, so
`SYSTEM_GetState` observed during the block reads `Sleep`; while the
external context never calls `SYSTEM_Wakeup` the poll loop does not
return; and whenever the call does return, a `SYSTEM_Wakeup` occurred
during the block and the state on return is `Ready`. -/
theorem system_enterSleep_blocks_until_wakeup
    (env : List Bool) (s : SysState) :
    SYSTEM_GetState (set_system_state SYS_STATE_SLEEP s) =
        SYS_STATE_SLEEP ∧
      ((∀ w ∈ env, w = false) → SYSTEM_EnterSleep env s = none) ∧
      (∀ s', SYSTEM_EnterSleep env s = some s' →
        s'.system_state = SYS_STATE_READY ∧
          env.any (fun w => w) = true) := by
  refine ⟨rfl, ?_, ?_⟩
  · intro hw
    exact sleep_loop_no_wakeup env _ rfl hw
  · intro s' h
    exact sleep_loop_returns env _ s' rfl h

/-- Witness for C7: with no wakeup the call has not returned after an
idle iteration; with one wakeup it returns in state `Ready`. -/
theorem system_enterSleep_blocks_until_wakeup_witness :
    SYSTEM_EnterSleep [false] initSys = none ∧
      ((SYSTEM_Wakeup (set_system_state SYS_STATE_SLEEP initSys)).system_state =
          SYS_STATE_READY ∧
        List.any [true] (fun w => w) = true) :=
  ⟨(system_enterSleep_blocks_until_wakeup [false] initSys).2.1 (by decide),
   (system_enterSleep_blocks_until_wakeup [true] initSys).2.2 _ (by decide)⟩

/-- C8: the interrupt gate is a flat boolean toggle with no nesting
counter: from any starting flag state, `Disable(); Disable();
Enable();` leaves interrupts enabled. -/
theorem interrupts_non_nesting (s : SysState) :
    (SYSTEM_EnableInterrupts
        (SYSTEM_DisableInterrupts
          (SYSTEM_DisableInterrupts s))).interruptsEnabled = true :=
  rfl

/-! ## ClockConfig: the oscillator selection chain of src/CONFIG/config.h -/

/-- The four mutually exclusive oscillator options of config.h
(`CONFIG_OSC_*`); `Option OscMode` with `Option.none` models the case
where none of them is defined. -/
inductive OscMode where
  | CONFIG_OSC_INTERNO_PLL
  | CONFIG_OSC_INTERNO_SIMPLE
  | CONFIG_OSC_EXTERNO_PLL
  | CONFIG_OSC_EXTERNO_SIMPLE
deriving DecidableEq, Repr

/-- The clock profile computed by the preprocessor chain of config.h
(lines 88-162): primary frequency, system frequency, instruction
frequency `FCY = FOSC / 2`, and whether the `#warning` of the final
`#else` branch (no oscillator option selected) fired. -/
structure ClockProfile where
  FOSC_PRIM : Nat
  FOSC : Nat
  FCY : Nat
  configWarning : Bool
deriving DecidableEq, Repr

/-- The `#if defined(CONFIG_OSC_...)` chain of config.h: each branch
defines `FOSC_PRIM`, `FOSC` and `FCY = FOSC / 2UL`; the final `#else`
branch emits the diagnostic `#warning` and substitutes the safe
defaults `FOSC_PRIM = 7370000`, `FOSC = FOSC_PRIM`,
`FCY = FOSC / 2`. -/
def clockConfig : Option OscMode → ClockProfile
  | some OscMode.CONFIG_OSC_INTERNO_PLL =>
      { FOSC_PRIM := 8000000, FOSC := 80000000, FCY := 80000000 / 2,
        configWarning := false }
  | some OscMode.CONFIG_OSC_INTERNO_SIMPLE =>
      { FOSC_PRIM := 7370000, FOSC := 7370000, FCY := 7370000 / 2,
        configWarning := false }
  | some OscMode.CONFIG_OSC_EXTERNO_PLL =>
      { FOSC_PRIM := 8000000, FOSC := 80000000, FCY := 80000000 / 2,
        configWarning := false }
  | some OscMode.CONFIG_OSC_EXTERNO_SIMPLE =>
      { FOSC_PRIM := 7370000, FOSC := 7370000, FCY := 7370000 / 2,
        configWarning := false }
  | Option.none =>
      { FOSC_PRIM := 7370000, FOSC := 7370000, FCY := 7370000 / 2,
        configWarning := true }

/-- `SYSTEM_GetClockFrequency` (config.c): `return (uint32_t)FCY;`.
Every `FCY` of `clockConfig` is below `2 ^ 32`, so the cast is
lossless and the function returns the profile frequency directly. -/
def SYSTEM_GetClockFrequency (osc : Option OscMode) : Nat :=
  (clockConfig osc).FCY

/-! ### Claim C9 -/

/-- C9: with no oscillator mode selected, the configuration warning is
signalled (the `#warning` branch, non-fatal: the build still defines
a profile) and the substituted safe default gives an instruction
frequency of `7370000 / 2 = 3685000`, which is what
`SYSTEM_GetClockFrequency` returns. -/
theorem clock_default_warning_and_frequency :
    (clockConfig Option.none).configWarning = true ∧
      SYSTEM_GetClockFrequency Option.none = 7370000 / 2 ∧
      SYSTEM_GetClockFrequency Option.none = 3685000 := by
  refine ⟨rfl, rfl, by decide⟩

/-! ## Lifecycle reachability: claim C10 -/

/-- The lifecycle operations of config.c that can run after power-on.
`EnterSleep` carries the wakeup activity of the external context
while its poll loop spins. -/
inductive LifecycleOp where
  | Initialize
  | Deinitialize
  | EnterSleep (env : List Bool)
  | Wakeup
  | Reset
deriving DecidableEq, Repr

/-- One lifecycle call.  For `EnterSleep`, if the poll loop never
returns the observable system state from then on is the one with
`system_state = SYS_STATE_SLEEP` set on entry; `SYSTEM_Reset` sets
`SYS_STATE_INIT` and then spins forever without further state change,
so its returned state is the state at every later instant. -/
def lifecycle_step : LifecycleOp → SysState → SysState
  | LifecycleOp.Initialize, s => SYSTEM_Initialize s
  | LifecycleOp.Deinitialize, s => SYSTEM_Deinitialize s
  | LifecycleOp.EnterSleep env, s =>
      match SYSTEM_EnterSleep env s with
      | some s' => s'
      | Option.none => set_system_state SYS_STATE_SLEEP s
  | LifecycleOp.Wakeup, s => SYSTEM_Wakeup s
  | LifecycleOp.Reset, s => SYSTEM_Reset s

/-- Run of a sequence of lifecycle calls from a given state. -/
def lifecycle_run : List LifecycleOp → SysState → SysState
  | [], s => s
  | op :: ops, s => lifecycle_run ops (lifecycle_step op s)

/-- Every single lifecycle call lands in `Init`, `Ready` or `Sleep`:
no operation of config.c ever assigns `SYS_STATE_BUSY` or
`SYS_STATE_ERROR`. -/
theorem lifecycle_step_in_core (op : LifecycleOp) (s : SysState) :
    (lifecycle_step op s).system_state = SYS_STATE_INIT ∨
      (lifecycle_step op s).system_state = SYS_STATE_READY ∨
      (lifecycle_step op s).system_state = SYS_STATE_SLEEP ∨
      (lifecycle_step op s).system_state = s.system_state := by
  cases op with
  | Initialize => exact Or.inr (Or.inl rfl)
  | Deinitialize => exact Or.inl rfl
  | EnterSleep env =>
      simp only [lifecycle_step]
      cases h : SYSTEM_EnterSleep env s with
      | none => exact Or.inr (Or.inr (Or.inl rfl))
      | some s' =>
          have := sleep_loop_returns env _ s' rfl h
          exact Or.inr (Or.inl this.1)
  | Wakeup =>
      by_cases h : s.system_state = SYS_STATE_SLEEP
      · simp [lifecycle_step, SYSTEM_Wakeup, h, set_system_state]
      · simp [lifecycle_step, SYSTEM_Wakeup, h]
  | Reset => exact Or.inl rfl

/-- C10: starting from the power-on state (`system_state =
SYS_STATE_INIT`), no sequence of lifecycle calls ever reaches
`SYS_STATE_BUSY` or `SYS_STATE_ERROR`: every reachable state of the
machine lies in the set with states Init, Ready and Sleep. -/
theorem lifecycle_busy_error_unreachable (ops : List LifecycleOp) :
    (lifecycle_run ops initSys).system_state = SYS_STATE_INIT ∨
      (lifecycle_run ops initSys).system_state = SYS_STATE_READY ∨
      (lifecycle_run ops initSys).system_state = SYS_STATE_SLEEP := by
  have main : ∀ (l : List LifecycleOp) (s : SysState),
      (s.system_state = SYS_STATE_INIT ∨
        s.system_state = SYS_STATE_READY ∨
        s.system_state = SYS_STATE_SLEEP) →
      ((lifecycle_run l s).system_state = SYS_STATE_INIT ∨
        (lifecycle_run l s).system_state = SYS_STATE_READY ∨
        (lifecycle_run l s).system_state = SYS_STATE_SLEEP) := by
    intro l
    induction l with
    | nil => intro s hs; exact hs
    | cons op ops ih =>
        intro s hs
        refine ih (lifecycle_step op s) ?_
        rcases lifecycle_step_in_core op s with h | h | h | h
        · exact Or.inl h
        · exact Or.inr (Or.inl h)
        · exact Or.inr (Or.inr h)
        · rw [h]; exact hs
  exact main ops initSys (Or.inl rfl)
